import Mathlib

/-!
Verification of the AI damage-inspection service (Django app) against its
design specification.

The embedding models, from the source:
 - `app/damage_inspection/models.py` — the pydantic data model (`Point`,
   `Rectangle`, `DamageDetection`) and, implicitly, the runtime validation
   pydantic performs on it;
 - `damage_inspection/inspector.py` — `DamageInspector.__init__`,
   `DamageInspector._create_model` and `DamageInspector.analyze_image_sync`;
 - `app/views.py` — the richer `DamageDetection` model (with `description`
   and `severity`), the `DamageInspector` defined there, and the
   `damage_inspection_v2` / `damage_inspection_v3` free-text-JSON handlers.

JSON numbers are modelled as rationals: none of the embedded code performs
floating-point arithmetic on coordinates (they are parsed, compared for
shape, and passed through verbatim), so ℚ is a faithful carrier.
-/

/-- Parsed JSON values, the output type of Python's `json.loads` and the
input type of pydantic validation. -/
inductive Json where
  | null : Json
  | bool (b : Bool) : Json
  | num (q : ℚ) : Json
  | str (s : String) : Json
  | arr (elems : List Json) : Json
  | obj (fields : List (String × Json)) : Json
deriving Repr

/-- Key lookup among the fields of a JSON object literal (first match, as in a
Python dict built from distinct literal keys). -/
def lookupPairs : List (String × Json) → String → Option Json
  | [], _ => none
  | (k, v) :: rest, key => if k = key then some v else lookupPairs rest key

/-- Field access on a JSON value: `none` unless the value is an object with
that key. -/
def lookupField (j : Json) (key : String) : Option Json :=
  match j with
  | .obj fields => lookupPairs fields key
  | _ => none

/-- From `models.py` / `views.py`: `class Point(BaseModel): x: float; y: float`.
No range constraint is declared on either coordinate. -/
structure Point where
  x : ℚ
  y : ℚ
deriving DecidableEq, Repr

/-- From `models.py` / `views.py`: `class Rectangle(BaseModel)` with fields
`bottom_left: Point` and `top_right: Point`. No ordering validator is
declared. -/
structure Rectangle where
  bottom_left : Point
  top_right : Point
deriving DecidableEq, Repr

/-- The 21 damage-type codes of the `Literal[...]` annotation on
`DamageDetection.damage_type` (`models.py` lines 17–20, `views.py`
lines 319–322). -/
def damageTypeCodes : List String :=
  ["O", "MS", "T", "ST", "SL", "S", "RU", "R", "PC", "P",
   "M", "L", "G", "FF", "F", "D", "CR", "C", "BR", "BB", "B"]

/-- From `damage_inspection/models.py`: `class DamageDetection(BaseModel)` with
`name: str`, `damage_type: Literal[...]` and `rectangle: Rectangle`. -/
structure DamageDetection where
  name : String
  damage_type : String
  rectangle : Rectangle
deriving DecidableEq, Repr

/-- From `app/views.py` lines 315–323: the richer `DamageDetection` model of the
view module, which additionally requires `description: str` and
`severity: str`. -/
structure AppDamageDetection where
  name : String
  description : String
  severity : String
  damage_type : String
  rectangle : Rectangle
deriving DecidableEq, Repr

/-- The distinct validation-failure kinds pydantic reports when parsed data
does not fit the declared model. -/
inductive SchemaViolation where
  | missingField (field : String) : SchemaViolation
  | wrongType (field : String) : SchemaViolation
  | invalidDamageType (code : String) : SchemaViolation
  | notAList : SchemaViolation
deriving DecidableEq, Repr

/-- Pydantic validation of a `Point`: the value must supply numeric `x` and
`y` fields. Mirrors `models.py` lines 5–8: both are bare `float` fields, so
any number is accepted — there is no `[0, 1]` bound. -/
def validatePoint (j : Json) : Except SchemaViolation Point :=
  match lookupField j "x" with
  | some (.num x) =>
    match lookupField j "y" with
    | some (.num y) => .ok ⟨x, y⟩
    | some _ => .error (.wrongType "y")
    | none => .error (.missingField "y")
  | some _ => .error (.wrongType "x")
  | none => .error (.missingField "x")

/-- Pydantic validation of a `Rectangle`: requires `bottom_left` and
`top_right` sub-objects, each a valid `Point`. Mirrors `models.py`
lines 10–12: no validator compares the two corners, so inverted rectangles
pass. -/
def validateRectangle (j : Json) : Except SchemaViolation Rectangle :=
  match lookupField j "bottom_left" with
  | none => .error (.missingField "bottom_left")
  | some bl =>
    match validatePoint bl with
    | .error e => .error e
    | .ok p1 =>
      match lookupField j "top_right" with
      | none => .error (.missingField "top_right")
      | some tr =>
        match validatePoint tr with
        | .error e => .error e
        | .ok p2 => .ok ⟨p1, p2⟩

/-- Pydantic validation of one `DamageDetection` of
`damage_inspection/models.py`: `name` must be a string, `damage_type` a
string drawn from the closed 21-code `Literal`, `rectangle` a valid
`Rectangle`. -/
def validateDamageDetection (j : Json) : Except SchemaViolation DamageDetection :=
  match lookupField j "name" with
  | some (.str name) =>
    match lookupField j "damage_type" with
    | some (.str code) =>
      if code ∈ damageTypeCodes then
        match lookupField j "rectangle" with
        | some r =>
          match validateRectangle r with
          | .error e => .error e
          | .ok rect => .ok ⟨name, code, rect⟩
        | none => .error (.missingField "rectangle")
      else .error (.invalidDamageType code)
    | some _ => .error (.wrongType "damage_type")
    | none => .error (.missingField "damage_type")
  | some _ => .error (.wrongType "name")
  | none => .error (.missingField "name")

/-- Element-wise pydantic validation of a list of detections, in order; the
first failing element fails the whole computation (pydantic returns no
partial list). -/
def validateDetections : List Json → Except SchemaViolation (List DamageDetection)
  | [] => .ok []
  | j :: rest =>
    match validateDamageDetection j with
    | .error e => .error e
    | .ok d =>
      match validateDetections rest with
      | .error e => .error e
      | .ok ds => .ok (d :: ds)

/-- Pydantic validation of the agent's declared `output_type =
List[DamageDetection]`: the value must be a list and every element must
validate; any element failure fails the whole list. -/
def validateDetectionList (j : Json) : Except SchemaViolation (List DamageDetection) :=
  match j with
  | .arr elems => validateDetections elems
  | _ => .error .notAList

/-- A part of an outbound provider request: either text or raw binary (image)
content. -/
inductive RequestPart where
  | text (s : String) : RequestPart
  | inlineBytes (data : List ℕ) : RequestPart
deriving DecidableEq, Repr

/-- The arguments `Agent.run_sync` receives: the user parts of the new turn
and the supplied message history. -/
structure RunRequest where
  user_parts : List RequestPart
  message_history : List RequestPart
deriving DecidableEq, Repr

/-- From `inspector.py` lines 105–108 and `views.py` lines 401–404: the call
`self.agent.run_sync("Analyze this car image for damages.",
message_history=[])`. The only data handed to the agent is the fixed text
prompt and an empty history; the `image_data` parameter of
`analyze_image_sync` appears nowhere in the call. -/
def analyzeImageRunRequest (image_data : List ℕ) : RunRequest :=
  { user_parts := [.text "Analyze this car image for damages."],
    message_history := [] }

/-- One `generate_content` request to the Google client: model id plus
ordered content parts. -/
structure GenerateContentRequest where
  model : String
  parts : List RequestPart
deriving DecidableEq, Repr

/-- From `views.py` lines 109–169: the `PROMPT_TEXT` of `damage_inspection_v2`
(0.0–1.0 box scale, `[x1, y1, x2, y2]` order). -/
def promptTextV2 : String :=
"
Role:
You are an expert AI Vehicle Damage Assessor. Your task is to analyze images of vehicles to identify physical damage, localize it using bounding boxes, and classify it according to a strict taxonomy.
Your analysis must be precise, damages must not be missed, even minor damages or uncertain damages should be reported. It is a lot better to thorough and over-report than under-report. Look for maximal number of possible damages and smallest possible boxes.
Verify results carefully before outputting. All damage rectangles should belong to a car part, and not reside in empty space, pavement, etc.
Objective:
Analyze the provided image. For every distinct area of damage found:
Identify:
Determine the specific car part (using snake_case naming).
Classify:
Assign the correct Damage Code from the allowed list.
Localize:
Estimate a bounding box for the damage using normalized coordinates (0.0 to 1.0).
Allowed Classification Schema (Damage Types) - Use ONLY these codes:
Other
Multiple Scratches
Torn
Stained
Soiled
Scratched
Rusted
Rubbed
Paint
Pitted
Missing
Loose
Gouged
Foreign
Faded
Dented
Cracked
Cut
Broken
Buffer
Bent

Add severity levels to the codes as follows:
- MINOR
- MEDIUM
- SEVERE

Add human readable location of the damage if possible: front_bumper, rear_bumper, left_headlight, etc.
If not possible, use \"unknown_location\".

Add text human readable description of the damage for each detected area.
Output Format Rules:
Output strictly valid JSON. Do not include markdown formatting (like ```json) or conversational text.
Naming Convention: For the \"name\" field, use descriptive snake_case (e.g., front_left_door, rear_bumper, hood).
Coordinates: The \"rectangle\" values must be normalized floats between 0.0 and 1.0 relative to the image width and height.
x: 0.0 is the left edge, 1.0 is the right edge.
y: 0.0 is the bottom edge, 1.0 is the top edge.
JSON Structure:Use the following structure exactly:
[\x7b
        \"damage_type\": \"CODE\",
        \"box_2d\": [x1, y1, x2, y2],
        \"description\": \"Human readable description of the damage.\",
        \"location\": \"CAR_PART\",
        \"severity\": \"SEVERITY_LEVEL\"
\x7d
]
"

/-- From `views.py` lines 226–262: the `PROMPT_TEXT` of `damage_inspection_v3`
(0–1000 box scale, `[ymin, xmin, ymax, xmax]` order). -/
def promptTextV3 : String :=
"
### Task
Find me the bounding boxes of all damages to the car in the image, classify the damage type, location and severity level.
Return a bounding box for each damage using standard normalized coordinates (0 to 1000). Cracks, dents, bents, paint chips, scratches, etc all qualifies as damage.

### Damage Type classification
Allowed Classification Schema (Damage Types) - Use ONLY these codes:
Torn
Stained
Scratched
Rusted
Paint
Missing
Dented
Cracked
Broken
Bent

### Location
Human readable description of the car part - e.g. front bumper

### Severity Level
minor, medium, severe

### Output Format Rules
Output strictly valid JSON. Do not include markdown formatting (like ```json) or conversational text.
Naming Convention: For the \"name\" field, use descriptive snake_case (e.g., front_left_door, rear_bumper, hood).
JSON Structure:Use the following structure exactly:
[\x7b
        \"damage_type\": \"CODE\",
        \"box_2d\": [ymin, xmin, ymax, xmax],
        \"description\": \"Human readable description of the damage.\",
        \"location\": \"CAR_PART\",
        \"severity\": \"SEVERITY_LEVEL\"
\x7d
]
"

/-- From `views.py` lines 171–191: the outbound request of `damage_inspection_v2`
carries the uploaded image bytes and the prompt, in that order. -/
def damageInspectionV2Request (image_bytes : List ℕ) : GenerateContentRequest :=
  { model := "gemini-3-pro-preview",
    parts := [.inlineBytes image_bytes, .text promptTextV2] }

/-- From `views.py` lines 264–285: the outbound request of `damage_inspection_v3`
carries the uploaded image bytes and the prompt, in that order. -/
def damageInspectionV3Request (image_bytes : List ℕ) : GenerateContentRequest :=
  { model := "gemini-3-pro-preview",
    parts := [.inlineBytes image_bytes, .text promptTextV3] }

/-- The JSON dict built for a `Point` inside a damage-area record
(`inspector.py` lines 116–123, `views.py` lines 423–430). -/
def pointToJson (p : Point) : Json :=
  .obj [("x", .num p.x), ("y", .num p.y)]

/-- The nested rectangle dict of a damage-area record. -/
def rectangleToJson (r : Rectangle) : Json :=
  .obj [("bottom_left", pointToJson r.bottom_left),
        ("top_right", pointToJson r.top_right)]

/-- From `inspector.py` lines 112–125: the dict appended to `damage_areas` for one
detection — `name`, `damage_type` and the nested `rectangle`, nothing else. -/
def detectionToRecord (detection : DamageDetection) : Json :=
  .obj [("name", .str detection.name),
        ("damage_type", .str detection.damage_type),
        ("rectangle", rectangleToJson detection.rectangle)]

/-- From `views.py` lines 417–432: the dict appended to `damage_areas` for one
detection in the richer mode — `name`, `description`, `severity`,
`damage_type` and the nested `rectangle`. -/
def appDetectionToRecord (detection : AppDamageDetection) : Json :=
  .obj [("name", .str detection.name),
        ("description", .str detection.description),
        ("severity", .str detection.severity),
        ("damage_type", .str detection.damage_type),
        ("rectangle", rectangleToJson detection.rectangle)]

/-- A failure raised out of `agent.run_sync`: either the provider call failed
or the provider's output failed validation against the declared
`output_type`. -/
inductive AgentRunError where
  | providerFailure (message : String) : AgentRunError
  | outputValidationFailure (violation : SchemaViolation) : AgentRunError
deriving DecidableEq, Repr

/-- From `inspector.py` lines 104–127 (`analyze_image_sync`), from the point the
`run_sync` outcome is known: an exception is re-raised unchanged; on success
each detection of `result.output` is mapped, in order, to its record dict and
the list is wrapped as `{"damage_areas": [...]}`. -/
def analyzeImageSync (run_result : Except AgentRunError (List DamageDetection)) :
    Except AgentRunError Json :=
  match run_result with
  | .error e => .error e
  | .ok output => .ok (.obj [("damage_areas", .arr (output.map detectionToRecord))])

/-- From `views.py` lines 396–439: the richer `analyze_image_sync`; identical
control flow, records carrying `description` and `severity` as well. -/
def appAnalyzeImageSync (run_result : Except AgentRunError (List AppDamageDetection)) :
    Except AgentRunError Json :=
  match run_result with
  | .error e => .error e
  | .ok output => .ok (.obj [("damage_areas", .arr (output.map appDetectionToRecord))])

/-- Failure kinds of `DamageInspector` construction: the `ValueError` raised
for an unknown `model_type` (the spec's `UnsupportedBackend`), or an
`AttributeError` from reading an instance attribute no branch assigned. -/
inductive InitError where
  | invalidModelType (given : String) : InitError
  | attributeUndefined (attr : String) : InitError
deriving DecidableEq, Repr

/-- A concrete provider model object as `_create_model` builds it: a Google
model, an Anthropic model, or pydantic_ai's `FallbackModel` over two of
them. Constructing these objects performs no network call — they only hold
the model name and provider credentials. -/
inductive ProviderModel where
  | google (model_name : String) : ProviderModel
  | anthropic (model_name : String) : ProviderModel
  | fallbackOf (primary secondary : ProviderModel) : ProviderModel
deriving DecidableEq, Repr

/-- The instance attributes of `damage_inspection/inspector.py`'s
`DamageInspector` that `_create_model` reads and writes. `agent_settings` is
`none` while the attribute has not been assigned at all (reading it then
would raise `AttributeError`), `some s` once a branch assigned it the
optional settings value `s`. The settings type is left abstract (`α`):
`_create_model` never inspects it. -/
structure InspectorSelf (α : Type) where
  model_type : String
  gemini_settings : Option α
  claude_settings : Option α
  agent_settings : Option (Option α)
deriving DecidableEq, Repr

/-- From `inspector.py` lines 78–102 (`_create_model`): selects the provider model
from `self.model_type`, assigning `self.agent_settings` in each non-raising
branch, and raises `ValueError` for any other identifier — before any model
object exists, hence before any network call can be issued. -/
def createModel {α : Type} (self : InspectorSelf α) :
    Except InitError (InspectorSelf α × ProviderModel) :=
  if self.model_type = "gemini" then
    .ok ({ self with agent_settings := some self.gemini_settings },
         .google "gemini-3.0-pro")
  else if self.model_type = "claude" then
    .ok ({ self with agent_settings := some self.claude_settings },
         .anthropic "claude-opus-4-5")
  else if self.model_type = "fallback" then
    .ok ({ self with agent_settings := some none },
         .fallbackOf (.google "gemini-2.5-flash") (.anthropic "claude-opus-4-5"))
  else
    .error (.invalidModelType self.model_type)

/-- The agent configuration `DamageInspector.__init__` assembles:
`model_settings` is included in `agent_kwargs` only when
`self.agent_settings` is truthy (`inspector.py` lines 67–76). -/
structure InspectorAgentConfig (α : Type) where
  model : ProviderModel
  model_settings : Option α
deriving DecidableEq, Repr

/-- From `inspector.py` lines 13–76 (`__init__`): stores the constructor
arguments, calls `_create_model`, then reads `self.agent_settings` to decide
whether `model_settings` is passed to `Agent`. Reading the attribute before
any assignment is modelled as `InitError.attributeUndefined`. -/
def inspectorInit (α : Type) (model_type : String) (gemini_settings claude_settings : Option α) :
    Except InitError (InspectorAgentConfig α) :=
  let self : InspectorSelf α :=
    { model_type := model_type, gemini_settings := gemini_settings,
      claude_settings := claude_settings, agent_settings := none }
  match createModel self with
  | .error e => .error e
  | .ok (selfAfter, model) =>
    match selfAfter.agent_settings with
    | none => .error (.attributeUndefined "agent_settings")
    | some s => .ok { model := model, model_settings := s }

/-- Python truthiness of the optional `model_name` argument in `views.py`
line 380 (`if model_name:`): `None` and the empty string are falsy. -/
def truthyName : Option String → Bool
  | none => false
  | some s => s != ""

/-- The agent configuration assembled by `views.py`'s `DamageInspector`:
model name string and the fixed `ModelSettings(temperature=1.0)`. -/
structure ViewsAgentConfig where
  model_name : String
  temperature : ℚ
deriving DecidableEq, Repr

/-- From `views.py` lines 327–394 (`DamageInspector.__init__` of the view module):
a truthy `model_name` override is used verbatim without consulting
`model_type`; otherwise the default model name is selected from `model_type`,
and only an unknown `model_type` reached on that path raises `ValueError`. -/
def viewsInspectorInit (model_type : String) (model_name : Option String) :
    Except InitError ViewsAgentConfig :=
  if truthyName model_name then
    .ok { model_name := model_name.getD "", temperature := 1 }
  else if model_type = "gemini" then
    .ok { model_name := "gemini-3-pro-preview", temperature := 1 }
  else if model_type = "claude" then
    .ok { model_name := "claude-opus-4-5", temperature := 1 }
  else
    .error (.invalidModelType model_type)

/-- The provider enum of the spec's `BackendConfig` (§3). -/
inductive Provider where
  | gemini : Provider
  | claude : Provider
deriving DecidableEq, Repr

/-- From §3: a backend configuration — provider plus model identifier
(credentials are irrelevant to the fallback logic and omitted here). -/
structure BackendConfig where
  provider : Provider
  model_identifier : String
deriving DecidableEq, Repr

/-- The failure classes of one extraction attempt (§4.4 / §7): all of them
advance the fallback chain equally. -/
inductive ExtractError where
  | providerError (message : String) : ExtractError
  | schemaViolation (violation : SchemaViolation) : ExtractError
  | responseParseError (message : String) : ExtractError
  | timeoutExpired : ExtractError
deriving DecidableEq, Repr

/-- Modelled from the spec: the fallback execution itself is performed by
`pydantic_ai.models.fallback.FallbackModel` — a dependency, not code of this
repository; `inspector.py` lines 91–99 only construct the chain. Per §4.4,
each backend is attempted in the given order, advancing on any failure;
the first success is returned unmodified; if all candidates fail, a single
aggregated `AllBackendsFailed` error is raised carrying the ordered list of
per-backend failures (the error payload here). -/
def extractWithFallback (extract : BackendConfig → Except ExtractError (List DamageDetection)) :
    List BackendConfig → Except (List (BackendConfig × ExtractError)) (List DamageDetection)
  | [] => .error []
  | c :: rest =>
    match extract c with
    | .ok result => .ok result
    | .error e =>
      match extractWithFallback extract rest with
      | .ok result => .ok result
      | .error failures => .error ((c, e) :: failures)

/-- From `views.py` lines 193–201 (`damage_inspection_v2`, after
`json.loads`): the parsed value `json_output` is placed verbatim under
`damage_areas` in the success response body — no renaming, validation,
rescaling or conversion of any field. -/
def damageInspectionV2Body (filename : String) (size : ℕ) (json_output : Json) : Json :=
  .obj [("status", .str "success"), ("filename", .str filename),
        ("size", .num size), ("damage_areas", json_output)]

/-- From `views.py` lines 287–295 (`damage_inspection_v3`, after
`json.loads`): identical to the v2 handler — the parsed value is returned to
the caller unchanged. -/
def damageInspectionV3Body (filename : String) (size : ℕ) (json_output : Json) : Json :=
  .obj [("status", .str "success"), ("filename", .str filename),
        ("size", .num size), ("damage_areas", json_output)]

/-- The worked example of spec §8, as parsed JSON: one dented front bumper
with rectangle (0.1, 0.2)–(0.3, 0.4). -/
def sampleDetectionJson : Json :=
  .obj [("name", .str "front_bumper"), ("damage_type", .str "D"),
        ("rectangle", .obj
          [("bottom_left", .obj [("x", .num (1/10)), ("y", .num (2/10))]),
           ("top_right", .obj [("x", .num (3/10)), ("y", .num (4/10))])])]

/-- The worked example of spec §8 as a validated detection value. -/
def sampleDetection : DamageDetection :=
  ⟨"front_bumper", "D", ⟨⟨1/10, 2/10⟩, ⟨3/10, 4/10⟩⟩⟩

/-- Like the sample detection, but carrying a damage-type code outside the
closed 21-code set. -/
def badCodeDetectionJson : Json :=
  .obj [("name", .str "front_bumper"), ("damage_type", .str "ZZZ"),
        ("rectangle", .obj
          [("bottom_left", .obj [("x", .num (1/10)), ("y", .num (2/10))]),
           ("top_right", .obj [("x", .num (3/10)), ("y", .num (4/10))])])]

/-- A rectangle object whose corners are swapped: the bottom-left point lies
to the right of and above the top-right point. -/
def invertedRectangleJson : Json :=
  .obj [("bottom_left", .obj [("x", .num (9/10)), ("y", .num (8/10))]),
        ("top_right", .obj [("x", .num (1/10)), ("y", .num (2/10))])]

/-- A point object with coordinates far outside `[0, 1]`. -/
def outOfRangePointJson : Json :=
  .obj [("x", .num 5), ("y", .num (-3))]

/-- One element of a v3 free-text response, exactly as the v3 prompt requests
it: a `box_2d` on the 0–1000 scale, no `rectangle` object. -/
def v3SampleElement : Json :=
  .obj [("damage_type", .str "S"),
        ("box_2d", .arr [.num 100, .num 250, .num 300, .num 1000]),
        ("description", .str "Scratch along the door."),
        ("location", .str "front left door"),
        ("severity", .str "minor")]

/-- A v3 parsed response holding the single sample element. -/
def v3SampleParsed : Json := .arr [v3SampleElement]

/-- One element of a v2 free-text response whose `damage_type` is outside the
closed code set. -/
def v2UnknownCodeElement : Json :=
  .obj [("damage_type", .str "ZZZ"),
        ("box_2d", .arr [.num (1/10), .num (2/10), .num (3/10), .num (4/10)]),
        ("description", .str "Mystery damage."),
        ("location", .str "hood"),
        ("severity", .str "minor")]

/-- A v2 parsed response holding the single unknown-code element. -/
def v2UnknownCodeParsed : Json := .arr [v2UnknownCodeElement]

/-- Three concrete backend configurations for exercising the fallback
coordinator. -/
def backendA : BackendConfig := ⟨.gemini, "gemini-2.5-flash"⟩

/-- Second concrete backend configuration. -/
def backendB : BackendConfig := ⟨.claude, "claude-opus-4-5"⟩

/-- Third concrete backend configuration. -/
def backendC : BackendConfig := ⟨.gemini, "gemini-3.0-pro"⟩

/-- An extraction function for which every backend fails with a provider
error naming the backend's model identifier. -/
def failingExtract (c : BackendConfig) : Except ExtractError (List DamageDetection) :=
  .error (.providerError c.model_identifier)

/-- Helper: a detection accepted by pydantic validation carries a damage-type
code from the closed 21-code set. -/
theorem validateDamageDetection_ok_code (j : Json) (d : DamageDetection)
    (h : validateDamageDetection j = .ok d) : d.damage_type ∈ damageTypeCodes := by
  unfold validateDamageDetection at h
  repeat split at h
  all_goals cases h
  assumption

/-- Helper: successful list validation validates one element into one
detection, in order. -/
theorem validateDetections_ok_length (elems : List Json) (ds : List DamageDetection)
    (h : validateDetections elems = .ok ds) : ds.length = elems.length := by
  induction elems generalizing ds with
  | nil =>
    simp only [validateDetections] at h
    injection h with h2
    subst h2
    rfl
  | cons j rest ih =>
    simp only [validateDetections] at h
    cases hj : validateDamageDetection j with
    | error e => rw [hj] at h; exact absurd h (by simp)
    | ok d =>
      rw [hj] at h
      cases hds : validateDetections rest with
      | error e => rw [hds] at h; exact absurd h (by simp)
      | ok ds2 =>
        rw [hds] at h
        injection h with h2
        subst h2
        simp [ih ds2 hds]

/-- Helper: every detection in a successfully validated list was produced by
element validation, hence carries an in-set code. -/
theorem validateDetections_ok_codes (elems : List Json) (ds : List DamageDetection)
    (h : validateDetections elems = .ok ds) :
    ∀ d ∈ ds, d.damage_type ∈ damageTypeCodes := by
  induction elems generalizing ds with
  | nil =>
    simp only [validateDetections] at h
    injection h with h2
    subst h2
    intro d hd
    exact absurd hd (by simp)
  | cons j rest ih =>
    simp only [validateDetections] at h
    cases hj : validateDamageDetection j with
    | error e => rw [hj] at h; exact absurd h (by simp)
    | ok d =>
      rw [hj] at h
      cases hds : validateDetections rest with
      | error e => rw [hds] at h; exact absurd h (by simp)
      | ok ds2 =>
        rw [hds] at h
        injection h with h2
        subst h2
        intro d2 hd2
        rcases List.mem_cons.mp hd2 with h1 | h2
        · subst h1
          exact validateDamageDetection_ok_code j d2 hj
        · exact ih ds2 hds d2 h2

/-- Helper: a failing element anywhere in the list fails the whole list
validation — no partial list is ever returned. -/
theorem validateDetections_mem_error (elems : List Json) (j : Json) (e : SchemaViolation)
    (hmem : j ∈ elems) (hj : validateDamageDetection j = .error e) :
    ∃ e2, validateDetections elems = .error e2 := by
  induction elems with
  | nil => exact absurd hmem (by simp)
  | cons j2 rest ih =>
    rcases List.mem_cons.mp hmem with h1 | h2
    · subst h1
      exact ⟨e, by simp only [validateDetections]; rw [hj]⟩
    · cases hj2 : validateDamageDetection j2 with
      | error e3 => exact ⟨e3, by simp only [validateDetections]; rw [hj2]⟩
      | ok d =>
        obtain ⟨e2, he2⟩ := ih h2
        exact ⟨e2, by simp only [validateDetections]; rw [hj2, he2]⟩

/-- C1 (code_bug evidence): in both copies of `analyze_image_sync`, the
outbound agent request is the same for every value of `image_data` — the
fixed text prompt with empty history and no binary part — so the uploaded
image bytes never reach the provider. By contrast, the v2 and v3 handlers do
attach the bytes to their requests, which is what the claim (and the
function's own parameter and prompt) describe. -/
theorem analyzeImageSync_request_omits_image :
    (∀ image_data : List ℕ, analyzeImageRunRequest image_data = analyzeImageRunRequest []) ∧
    (∀ (image_data : List ℕ) (b : List ℕ),
        RequestPart.inlineBytes b ∉ (analyzeImageRunRequest image_data).user_parts ∧
        (analyzeImageRunRequest image_data).message_history = []) ∧
    (∀ image_bytes : List ℕ,
        RequestPart.inlineBytes image_bytes ∈ (damageInspectionV2Request image_bytes).parts ∧
        RequestPart.inlineBytes image_bytes ∈ (damageInspectionV3Request image_bytes).parts) := by
  refine ⟨fun _ => rfl, fun image_data b => ⟨?_, rfl⟩, fun image_bytes => ⟨?_, ?_⟩⟩
  · simp [analyzeImageRunRequest]
  · simp [damageInspectionV2Request]
  · simp [damageInspectionV3Request]

/-- C2 (counterexample): a v3 response element whose `box_2d` uses the stated
0–1000 scale is returned to the caller verbatim — the success body's
`damage_areas` is the parsed value itself, the element still holds the raw
coordinate 1000, and no canonical `rectangle` field exists — so the stored
result is not a `Rectangle` normalized to 0–1 and no division by the scale
occurred. -/
theorem v3_box_returned_unscaled :
    lookupField (damageInspectionV3Body "car.jpg" 54321 v3SampleParsed) "damage_areas"
      = some v3SampleParsed ∧
    lookupField v3SampleElement "box_2d"
      = some (.arr [.num 100, .num 250, .num 300, .num 1000]) ∧
    lookupField v3SampleElement "rectangle" = none ∧
    lookupField (damageInspectionV3Body "car.jpg" 54321 v3SampleParsed) "status"
      = some (.str "success") :=
  ⟨rfl, rfl, rfl, rfl⟩

/-- C2 (amended): the only box normalization in the program is inherited from
the schema-constrained mode, whose records pass the model's
`bottom_left`/`top_right` rectangle through unchanged; the free-text v2 and
v3 handlers return the parsed JSON verbatim under `damage_areas`, performing
no scale division and no conversion to the canonical `Rectangle`. -/
theorem no_mode_rescales_boxes :
    (∀ (filename : String) (size : ℕ) (json_output : Json),
        lookupField (damageInspectionV2Body filename size json_output) "damage_areas"
          = some json_output ∧
        lookupField (damageInspectionV3Body filename size json_output) "damage_areas"
          = some json_output) ∧
    (∀ d : DamageDetection,
        lookupField (detectionToRecord d) "rectangle"
          = some (rectangleToJson d.rectangle)) :=
  ⟨fun _ _ _ => ⟨rfl, rfl⟩, fun _ => rfl⟩

/-- C3 (counterexample): pydantic accepts an inverted rectangle — validation
returns it with the corners exactly as supplied, although its bottom-left
corner lies strictly to the right of and above its top-right corner — and
likewise accepts a point far outside `[0, 1]`; neither is a validation
error. -/
theorem inverted_rectangle_validates :
    validateRectangle invertedRectangleJson
      = .ok ⟨⟨9/10, 8/10⟩, ⟨1/10, 2/10⟩⟩ ∧
    ¬((9 : ℚ)/10 ≤ 1/10) ∧ ¬((8 : ℚ)/10 ≤ 2/10) ∧
    validatePoint outOfRangePointJson = .ok ⟨5, -3⟩ := by
  refine ⟨rfl, by norm_num, by norm_num, rfl⟩

/-- C3 (amended): validation enforces only shape — presence and numeric type
of the four coordinates. Every pair of points, inverted or out of range
included, round-trips through `validateRectangle` unchanged, so no rectangle
constraint beyond field shape is checked. -/
theorem rectangle_validation_is_shape_only (bl tr : Point) :
    validateRectangle (.obj [("bottom_left", pointToJson bl), ("top_right", pointToJson tr)])
      = .ok ⟨bl, tr⟩ := rfl

/-- C4 (counterexample): the record the base-mode `analyze_image_sync` of
`inspector.py` returns for the spec's own §8 example detection has no
`description` and no `severity` key at all — the fields are omitted, not
populated with defaults. -/
theorem base_mode_record_omits_fields :
    lookupField (detectionToRecord sampleDetection) "description" = none ∧
    lookupField (detectionToRecord sampleDetection) "severity" = none ∧
    lookupField (detectionToRecord sampleDetection) "name"
      = some (.str "front_bumper") :=
  ⟨rfl, rfl, rfl⟩

/-- C4 (amended): the returned record shape differs by mode. The richer
`views.py` mode returns `description` and `severity` copied from the model
output (which its model requires); the base `inspector.py` mode returns
records with only `name`, `damage_type` and `rectangle`, omitting
`description` and `severity` entirely rather than filling a default. -/
theorem record_shape_depends_on_mode :
    (∀ d : DamageDetection,
        lookupField (detectionToRecord d) "name" = some (.str d.name) ∧
        lookupField (detectionToRecord d) "damage_type" = some (.str d.damage_type) ∧
        lookupField (detectionToRecord d) "description" = none ∧
        lookupField (detectionToRecord d) "severity" = none) ∧
    (∀ d : AppDamageDetection,
        lookupField (appDetectionToRecord d) "description" = some (.str d.description) ∧
        lookupField (appDetectionToRecord d) "severity" = some (.str d.severity)) :=
  ⟨fun _ => ⟨rfl, rfl, rfl, rfl⟩, fun _ => ⟨rfl, rfl⟩⟩

/-- C5 (counterexample): a parsed v2 free-text response whose `damage_type`
is "ZZZ" — outside the 21-code set — is returned to the caller wrapped in a
success body, detections included, instead of failing with a
`SchemaViolation`. -/
theorem unknown_code_passes_through_v2 :
    lookupField (damageInspectionV2Body "car.jpg" 1234 v2UnknownCodeParsed) "damage_areas"
      = some v2UnknownCodeParsed ∧
    lookupField (damageInspectionV2Body "car.jpg" 1234 v2UnknownCodeParsed) "status"
      = some (.str "success") ∧
    lookupField v2UnknownCodeElement "damage_type" = some (.str "ZZZ") ∧
    "ZZZ" ∉ damageTypeCodes :=
  ⟨rfl, rfl, rfl, by decide⟩

/-- C5 (amended): only the schema-constrained mode enforces the closed code
set, and there it is all-or-nothing: a successful validation returns one
detection per response element, each with a damage type in the 21-code set,
and a response containing any invalid element fails as a whole with zero
detections; the free-text v2/v3 handlers perform no damage-type validation
and pass unknown codes to the caller. -/
theorem schema_mode_code_validation_all_or_nothing :
    (∀ (elems : List Json) (ds : List DamageDetection),
        validateDetectionList (.arr elems) = .ok ds →
        ds.length = elems.length ∧ ∀ d ∈ ds, d.damage_type ∈ damageTypeCodes) ∧
    (∀ (elems : List Json) (j : Json) (e : SchemaViolation),
        j ∈ elems → validateDamageDetection j = .error e →
        ∃ e2, validateDetectionList (.arr elems) = .error e2) := by
  constructor
  · intro elems ds h
    exact ⟨validateDetections_ok_length elems ds h, validateDetections_ok_codes elems ds h⟩
  · intro elems j e hmem hj
    exact validateDetections_mem_error elems j e hmem hj

/-- Witness for C5's amended theorem at concrete inputs: the §8 sample list
validates completely, and a singleton list with code "ZZZ" is rejected as a
whole. -/
theorem schema_mode_code_validation_witness :
    (([sampleDetection] : List DamageDetection).length = [sampleDetectionJson].length ∧
      ∀ d ∈ [sampleDetection], d.damage_type ∈ damageTypeCodes) ∧
    ∃ e2, validateDetectionList (.arr [badCodeDetectionJson]) = .error e2 :=
  ⟨schema_mode_code_validation_all_or_nothing.1 [sampleDetectionJson] [sampleDetection] rfl,
   schema_mode_code_validation_all_or_nothing.2 [badCodeDetectionJson] badCodeDetectionJson
     (.invalidDamageType "ZZZ") (List.mem_cons_self badCodeDetectionJson []) rfl⟩

/-- C6: when every backend in the chain fails, the fallback coordinator
returns the single aggregated failure whose payload lists exactly one
(backend, failure) entry per attempted backend, in attempt order — never a
bare failure of only the last attempt. -/
theorem extractWithFallback_all_fail
    (extract : BackendConfig → Except ExtractError (List DamageDetection))
    (configs : List BackendConfig)
    (h : ∀ c ∈ configs, ∃ e, extract c = .error e) :
    ∃ failures, extractWithFallback extract configs = .error failures ∧
      failures.map Prod.fst = configs ∧
      ∀ p ∈ failures, extract p.1 = .error p.2 := by
  induction configs with
  | nil => exact ⟨[], rfl, rfl, fun p hp => absurd hp (by simp)⟩
  | cons c rest ih =>
    obtain ⟨e, he⟩ := h c (List.mem_cons_self c rest)
    obtain ⟨failures, hf, hmap, hmem⟩ := ih (fun c2 hc2 => h c2 (List.mem_cons_of_mem c hc2))
    refine ⟨(c, e) :: failures, ?_, by simp [hmap], ?_⟩
    · simp only [extractWithFallback]
      rw [he, hf]
    · intro p hp
      rcases List.mem_cons.mp hp with h1 | h2
      · subst h1; exact he
      · exact hmem p h2

/-- Witness for C6 at a concrete three-backend chain in which every attempt
fails: the aggregated error lists the three backends in attempt order. -/
theorem extractWithFallback_all_fail_witness :
    ∃ failures,
      extractWithFallback failingExtract [backendA, backendB, backendC] = .error failures ∧
      failures.map Prod.fst = [backendA, backendB, backendC] ∧
      ∀ p ∈ failures, failingExtract p.1 = .error p.2 :=
  extractWithFallback_all_fail failingExtract [backendA, backendB, backendC]
    (fun c _ => ⟨.providerError c.model_identifier, rfl⟩)

/-- C7 (counterexample): in `views.py`, a truthy `model_name` override is
accepted before `model_type` is ever inspected, so construction with the
unsupported backend identifier "bogus" succeeds instead of failing. -/
theorem views_override_bypasses_backend_check :
    viewsInspectorInit "bogus" (some "gemini-2.5-flash")
      = .ok { model_name := "gemini-2.5-flash", temperature := 1 } := rfl

/-- C7 (amended): in `inspector.py`, construction with any backend identifier
outside the closed set fails with the `ValueError` raised by `_create_model`
(the spec's `UnsupportedBackend`) — on that path no provider-model value is
ever produced, so no network call can have been issued; in `views.py` the
same rejection holds only when no model-name override is supplied, a truthy
`model_name` bypassing the identifier check. -/
theorem unknown_backend_rejected_before_model_exists :
    (∀ (α : Type) (mt : String) (gs cs : Option α),
        mt ≠ "gemini" → mt ≠ "claude" → mt ≠ "fallback" →
        inspectorInit α mt gs cs = .error (.invalidModelType mt)) ∧
    (∀ mt : String, mt ≠ "gemini" → mt ≠ "claude" →
        viewsInspectorInit mt none = .error (.invalidModelType mt)) := by
  constructor
  · intro α mt gs cs h1 h2 h3
    simp [inspectorInit, createModel, h1, h2, h3]
  · intro mt h1 h2
    simp [viewsInspectorInit, truthyName, h1, h2]

/-- Witness for C7's amended theorem at the concrete identifier "bogus". -/
theorem unknown_backend_rejected_witness :
    inspectorInit Unit "bogus" none none = .error (.invalidModelType "bogus") ∧
    viewsInspectorInit "bogus" none = .error (.invalidModelType "bogus") :=
  ⟨unknown_backend_rejected_before_model_exists.1 Unit "bogus" none none
      (by decide) (by decide) (by decide),
   unknown_backend_rejected_before_model_exists.2 "bogus" (by decide) (by decide)⟩

/-- C8: an empty detection list from the provider is a success carrying zero
damage areas; every successful run result maps to a success, and run failures
propagate as the distinct error state, so an empty result is never confused
with a failure. Both copies of `analyze_image_sync` agree. -/
theorem empty_detection_list_is_success :
    analyzeImageSync (.ok []) = .ok (.obj [("damage_areas", .arr [])]) ∧
    (∀ output, (analyzeImageSync (.ok output)).isOk = true) ∧
    (∀ e, analyzeImageSync (.error e) = .error e) ∧
    appAnalyzeImageSync (.ok []) = .ok (.obj [("damage_areas", .arr [])]) :=
  ⟨rfl, fun _ => rfl, fun _ => rfl, rfl⟩

/-- C9: the returned result wraps exactly one record per detection, in the
model's emission order with no deduplication, and the i-th record carries the
i-th detection's name, damage type and all four rectangle coordinates
unchanged. -/
theorem result_preserves_order_and_fields
    (output : List DamageDetection) (i : ℕ) (h : i < output.length) :
    analyzeImageSync (.ok output)
      = .ok (.obj [("damage_areas", .arr (output.map detectionToRecord))]) ∧
    (output.map detectionToRecord).length = output.length ∧
    (output.map detectionToRecord)[i]? = some (detectionToRecord output[i]) ∧
    lookupField (detectionToRecord output[i]) "name" = some (.str output[i].name) ∧
    lookupField (detectionToRecord output[i]) "damage_type"
      = some (.str output[i].damage_type) ∧
    lookupField (detectionToRecord output[i]) "rectangle"
      = some (.obj [("bottom_left", .obj [("x", .num output[i].rectangle.bottom_left.x),
                                          ("y", .num output[i].rectangle.bottom_left.y)]),
                    ("top_right", .obj [("x", .num output[i].rectangle.top_right.x),
                                        ("y", .num output[i].rectangle.top_right.y)])]) := by
  refine ⟨rfl, by simp, ?_, rfl, rfl, rfl⟩
  rw [List.getElem?_map, List.getElem?_eq_getElem h]
  rfl

/-- Witness for C9 at the spec's §8 single-detection example. -/
theorem result_preserves_order_witness :
    0 < [sampleDetection].length ∧
    analyzeImageSync (.ok [sampleDetection])
      = .ok (.obj [("damage_areas", .arr [detectionToRecord sampleDetection])]) :=
  ⟨by decide, (result_preserves_order_and_fields [sampleDetection] 0 (by decide)).1⟩

/-- C10: for each of the three accepted model types, `_create_model` assigns
`agent_settings` on its branch before `__init__` reads the attribute, so
construction succeeds and carries the selected branch's settings; for any
other model type construction fails with `ValueError` before that read; the
undefined-attribute outcome is unreachable for every input. -/
theorem inspector_init_never_undefined_attribute :
    (∀ (α : Type) (gs cs : Option α),
        inspectorInit α "gemini" gs cs = .ok ⟨.google "gemini-3.0-pro", gs⟩ ∧
        inspectorInit α "claude" gs cs = .ok ⟨.anthropic "claude-opus-4-5", cs⟩ ∧
        inspectorInit α "fallback" gs cs
          = .ok ⟨.fallbackOf (.google "gemini-2.5-flash")
              (.anthropic "claude-opus-4-5"), none⟩) ∧
    (∀ (α : Type) (mt : String) (gs cs : Option α),
        inspectorInit α mt gs cs ≠ .error (.attributeUndefined "agent_settings")) ∧
    (∀ (α : Type) (mt : String) (gs cs : Option α),
        mt ≠ "gemini" → mt ≠ "claude" → mt ≠ "fallback" →
        inspectorInit α mt gs cs = .error (.invalidModelType mt)) := by
  refine ⟨fun α gs cs => ⟨rfl, rfl, rfl⟩, ?_, ?_⟩
  · intro α mt gs cs
    by_cases h1 : mt = "gemini"
    · subst h1; simp [inspectorInit, createModel]
    by_cases h2 : mt = "claude"
    · subst h2; simp [inspectorInit, createModel]
    by_cases h3 : mt = "fallback"
    · subst h3; simp [inspectorInit, createModel]
    · simp [inspectorInit, createModel, h1, h2, h3]
  · intro α mt gs cs h1 h2 h3
    simp [inspectorInit, createModel, h1, h2, h3]

/-- Witness for C10 at concrete inputs: fallback mode succeeds with no agent
settings, and an unknown model type fails with the `ValueError`, not with an
undefined-attribute error. -/
theorem inspector_init_witness :
    inspectorInit Unit "fallback" (some ()) (some ())
      = .ok ⟨.fallbackOf (.google "gemini-2.5-flash") (.anthropic "claude-opus-4-5"), none⟩ ∧
    inspectorInit Unit "bogus" none none = .error (.invalidModelType "bogus") :=
  ⟨(inspector_init_never_undefined_attribute.1 Unit (some ()) (some ())).2.2,
   inspector_init_never_undefined_attribute.2.2 Unit "bogus" none none
     (by decide) (by decide) (by decide)⟩
